import Mathlib

/-!
Shallow embedding of the `ado_batch_creator` repository (Go):
`src/main.go` together with the record model in `src/models`.

The program reads a list of user stories, creates each one as an Azure
DevOps work item via `createUserStory`, and for each created story creates
its tasks via `createTask`, linking each task to its parent story.

The embedding keeps the source's structure: payloads are the literal
JSON-patch operation lists built in `createUserStory` (main.go:84-125)
and `createTask` (main.go:195-242); the HTTP layer is parameterized by an
environment (`CallEnv`) that supplies, per call, either a request-build
failure, a transport failure, or a response (status code, status line and
the result of JSON-decoding the body).  Each function additionally
returns the list of HTTP requests it actually issued, so that claims
about which calls happen (and with which payloads) are statable.
Go panics arising from blind type assertions (`.(float64)`, `.(string)`)
are modelled as a distinct `Outcome.panic` result.
-/

namespace models

/-- Embedding of `models.Task` (src/models, Task struct): name, type, description,
owner, state, priority, estimate.  The Go field `Type` is rendered
`Type'` because `Type` is a Lean keyword. -/
structure Task where
  Name : String
  Type' : String
  Description : String
  Owner : String
  State : String
  Priority : Int
  Estimate : Int
deriving DecidableEq, Repr

/-- Embedding of `models.UserStory` (src/models, UserStory struct). -/
structure UserStory where
  Name : String
  Type' : String
  Description : String
  Owner : String
  State : String
  Priority : Int
  Area : String
  Path : String
  Tasks : List Task
  Iteraction : Option String
  Team : String
deriving DecidableEq, Repr

/-- Embedding of `models.AdoSettings` (fields as populated by `GetAdoSettings`,
main.go:288-306): the three configuration values `devops.organization`,
`devops.project` and `devops.pat` that `createUserStory` and `createTask`
read from configuration at main.go:72-74 and main.go:182-184.  The
embedding passes them explicitly. -/
structure AdoSettings where
  Organization : String
  Project : String
  Pat : String
deriving DecidableEq, Repr

end models

/-- A JSON value as it appears in a decoded response body
(`map[string]interface\x7b\x7d` in Go).  Strings decode to `str`, all JSON
numbers decode to Go `float64`, modelled as `num`; `null` and `boolean`
stand for the remaining shapes a field may have. -/
inductive JVal where
  | str : String → JVal
  | num : Int → JVal
  | null : JVal
  | boolean : Bool → JVal
deriving DecidableEq, Repr

/-- The value of the relations-append operation in `createTask`
(main.go:224-230): an object with keys `rel`, `url` and
`attributes.comment`. -/
structure RelationValue where
  rel : String
  url : String
  comment : String
deriving DecidableEq, Repr

/-- The value carried by one payload operation: a string field value, a
numeric field value, or the nested relation object. -/
inductive OpValue where
  | str : String → OpValue
  | num : Int → OpValue
  | rel : RelationValue → OpValue
deriving DecidableEq, Repr

/-- One `\x7bop, path, value\x7d` triple of the JSON-patch payload. -/
structure Op where
  op : String
  path : String
  value : OpValue
deriving DecidableEq, Repr

/-- An outbound HTTP request: target URL and JSON-patch payload. -/
structure Request where
  url : String
  payload : List Op
deriving DecidableEq, Repr

/-- Per-call environment: everything the outside world decides about one
HTTP call.  `buildReqError` models `http.NewRequestWithContext` failing
(no request goes out); `sendError` models `client.Do` failing (transport
error); `response` carries the numeric status code, the status line
(`resp.Status`) and the result of `json.NewDecoder(resp.Body).Decode`
into a string-keyed map (`Except.error` = undecodable body). -/
inductive CallEnv where
  | buildReqError : String → CallEnv
  | sendError : String → CallEnv
  | response : Nat → String → Except String (List (String × JVal)) → CallEnv
deriving Repr

/-- The errors returned by `createUserStory` / `createTask`, one
constructor per `fmt.Errorf` format string in the source:
`missingConfig` = "missing Azure DevOps configuration..." (main.go:78,188);
`requestBuildFailed` = "failed to create request: %w" (main.go:136,253);
`sendFailed` = "failed to send request: %w" (main.go:147,264);
`parseFailed` = "failed to parse response: %w" (main.go:155,166);
`createUserStoryFailed` = "failed to create user story, status: %s with
message: %s" (main.go:158), carrying the status line and the message;
`createTaskFailed` = "failed to create task, status: %s" (main.go:270),
carrying only the status line. -/
inductive GoError where
  | missingConfig : GoError
  | requestBuildFailed : String → GoError
  | sendFailed : String → GoError
  | parseFailed : String → GoError
  | createUserStoryFailed : String → String → GoError
  | createTaskFailed : String → GoError
deriving DecidableEq, Repr

/-- How one call ends: normal return (`ok`), an error return (`err`), or
a Go runtime panic from a failed type assertion (`panic`). -/
inductive Outcome where
  | ok : Outcome
  | err : GoError → Outcome
  | panic : String → Outcome
deriving DecidableEq, Repr

/-- The user-story creation URL (main.go:81): `%%20` in the Go format
string is a literal `%20`. -/
def userStoryURL (organization project : String) : String :=
  "https://dev.azure.com/" ++ organization ++ "/" ++ project ++
    "/_apis/wit/workitems/$User%20Story?api-version=7.0"

/-- The task creation URL (main.go:192). -/
def taskURL (organization project : String) : String :=
  "https://dev.azure.com/" ++ organization ++ "/" ++ project ++
    "/_apis/wit/workitems/$Task?api-version=7.0"

/-- The work-item URL placed in a task's hierarchy relation
(main.go:226), built from the organization and the parent's id. -/
def workItemURL (organization : String) (parentID : Int) : String :=
  "https://dev.azure.com/" ++ organization ++ "/_apis/wit/workItems/" ++
    toString parentID

/-- The user-story payload (main.go:84-125).  The trailing
`System.Iteraction` operation is commented out in the source and hence
absent here. -/
def userStoryPayload (userStory : models.UserStory) : List Op :=
  [ ⟨"add", "/fields/System.Title", .str userStory.Name⟩,
    ⟨"add", "/fields/System.Description", .str userStory.Description⟩,
    ⟨"add", "/fields/System.AssignedTo", .str userStory.Owner⟩,
    ⟨"add", "/fields/Microsoft.VSTS.Common.Priority", .num userStory.Priority⟩,
    ⟨"add", "/fields/System.State", .str userStory.State⟩,
    ⟨"add", "/fields/System.Tags", .str ("system_automated")⟩,
    ⟨"add", "/fields/System.AreaPath", .str userStory.Area⟩ ]

/-- The task payload (main.go:195-242): five field operations from the
task, the hierarchy relation pointing at the parent work item, and the
area path taken from the parent user story (`userStory.Area`).  The
`System.Iteraction` operation is commented out in the source. -/
def taskPayload (organization : String) (parentID : Int) (task : models.Task)
    (userStory : models.UserStory) : List Op :=
  [ ⟨"add", "/fields/System.Title", .str task.Name⟩,
    ⟨"add", "/fields/System.Description", .str task.Description⟩,
    ⟨"add", "/fields/System.AssignedTo", .str task.Owner⟩,
    ⟨"add", "/fields/Microsoft.VSTS.Common.Priority", .num task.Priority⟩,
    ⟨"add", "/fields/System.State", .str task.State⟩,
    ⟨"add", "/relations/-",
      .rel ⟨"System.LinkTypes.Hierarchy-Reverse",
            workItemURL organization parentID,
            "Linking task to user story"⟩⟩,
    ⟨"add", "/fields/System.AreaPath", .str userStory.Area⟩ ]

/-- Embedding of `createTask` (main.go:181-275).  Returns the outcome and the list of
HTTP requests actually sent.  Configuration validation happens before
anything else; `json.Marshal` of this payload cannot fail and is modelled
as total.  On a response the source only checks the status code: a
non-200/201 status yields `createTaskFailed` with the status line (the
body is never decoded); otherwise the call succeeds. -/
def createTask (settings : models.AdoSettings) (parentID : Int)
    (task : models.Task) (userStory : models.UserStory) (env : CallEnv) :
    Outcome × List Request :=
  if settings.Organization = "" ∨ settings.Project = "" ∨ settings.Pat = "" then
    (.err .missingConfig, [])
  else
    match env with
    | .buildReqError msg => (.err (.requestBuildFailed msg), [])
    | .sendError msg =>
        (.err (.sendFailed msg),
         [⟨taskURL settings.Organization settings.Project,
           taskPayload settings.Organization parentID task userStory⟩])
    | .response status statusLine _ =>
        if status ≠ 200 ∧ status ≠ 201 then
          (.err (.createTaskFailed statusLine),
           [⟨taskURL settings.Organization settings.Project,
             taskPayload settings.Organization parentID task userStory⟩])
        else
          (.ok,
           [⟨taskURL settings.Organization settings.Project,
             taskPayload settings.Organization parentID task userStory⟩])

/-- The result of `createUserStory`: its outcome, the requests issued for
the parent story itself (empty or a singleton), and the per-task results
of the `createTask` loop in order (empty unless the parent was created). -/
structure USResult where
  outcome : Outcome
  parentRequests : List Request
  childResults : List (Outcome × List Request)
deriving Repr

/-- The task loop of `createUserStory` (main.go:170-175): every task is
attempted in order with its own per-call environment (`cenvs i` for the
i-th task); a task's error is logged and otherwise ignored. -/
def runTasks (settings : models.AdoSettings) (parentID : Int)
    (userStory : models.UserStory) (tasks : List models.Task)
    (cenvs : Nat → CallEnv) : List (Outcome × List Request) :=
  match tasks with
  | [] => []
  | task :: rest =>
      createTask settings parentID task userStory (cenvs 0) ::
        runTasks settings parentID userStory rest (fun i => cenvs (i + 1))

/-- Embedding of `createUserStory` (main.go:71-178).  `penv` is the environment of the
story's own HTTP call, `cenvs` the environments of its tasks' calls.
On a non-success status the source decodes the error body and then blindly
asserts `errResponseBody["message"].(string)` — a missing or non-string
`message` is a Go panic.  On success it blindly asserts
`responseBody["id"].(float64)` — a missing or non-numeric `id` is a Go
panic; otherwise the tasks are created with the decoded id as parent. -/
def createUserStory (settings : models.AdoSettings)
    (userStory : models.UserStory) (penv : CallEnv) (cenvs : Nat → CallEnv) :
    USResult :=
  if settings.Organization = "" ∨ settings.Project = "" ∨ settings.Pat = "" then
    ⟨.err .missingConfig, [], []⟩
  else
    match penv with
    | .buildReqError msg => ⟨.err (.requestBuildFailed msg), [], []⟩
    | .sendError msg =>
        ⟨.err (.sendFailed msg),
         [⟨userStoryURL settings.Organization settings.Project,
           userStoryPayload userStory⟩], []⟩
    | .response status statusLine body =>
        if status ≠ 200 ∧ status ≠ 201 then
          match body with
          | .error e =>
              ⟨.err (.parseFailed e),
               [⟨userStoryURL settings.Organization settings.Project,
                 userStoryPayload userStory⟩], []⟩
          | .ok obj =>
              match obj.lookup ("message") with
              | some (.str msg) =>
                  ⟨.err (.createUserStoryFailed statusLine msg),
                   [⟨userStoryURL settings.Organization settings.Project,
                     userStoryPayload userStory⟩], []⟩
              | _ =>
                  ⟨.panic ("interface conversion: message is not a string"),
                   [⟨userStoryURL settings.Organization settings.Project,
                     userStoryPayload userStory⟩], []⟩
        else
          match body with
          | .error e =>
              ⟨.err (.parseFailed e),
               [⟨userStoryURL settings.Organization settings.Project,
                 userStoryPayload userStory⟩], []⟩
          | .ok obj =>
              match obj.lookup ("id") with
              | some (.num userStoryID) =>
                  ⟨.ok,
                   [⟨userStoryURL settings.Organization settings.Project,
                     userStoryPayload userStory⟩],
                   runTasks settings userStoryID userStory userStory.Tasks cenvs⟩
              | _ =>
                  ⟨.panic ("interface conversion: id is not a float64"),
                   [⟨userStoryURL settings.Organization settings.Project,
                     userStoryPayload userStory⟩], []⟩

/-- The field value that a payload carries at a given path: the value of
the first operation whose path matches. -/
def fieldValue (payload : List Op) (path : String) : Option OpValue :=
  (payload.find? (fun o => o.path == path)).map (fun o => o.value)

/-- The `message` a returned error surfaces, if any: only the user-story
status error (main.go:158) interpolates the decoded `message` field. -/
def surfacedMessage : GoError → Option String
  | .createUserStoryFailed _ msg => some msg
  | _ => none

/-- The HTTP status line a returned error surfaces, if any. -/
def surfacedStatus : GoError → Option String
  | .createUserStoryFailed statusLine _ => some statusLine
  | .createTaskFailed statusLine => some statusLine
  | _ => none

/-! ### Helper lemmas -/

/-- Every request issued by `createTask` targets the task-creation URL and
carries the task payload. -/
theorem createTask_requests (settings : models.AdoSettings) (parentID : Int)
    (task : models.Task) (userStory : models.UserStory) (env : CallEnv) :
    ∀ r ∈ (createTask settings parentID task userStory env).2,
      r = ⟨taskURL settings.Organization settings.Project,
           taskPayload settings.Organization parentID task userStory⟩ := by
  intro r hr
  unfold createTask at hr
  split at hr
  · simp at hr
  · cases env with
    | buildReqError m => simp at hr
    | sendError m => simpa using hr
    | response st sl b =>
        dsimp only at hr
        split at hr <;> simpa using hr

/-- In the task payload, the only operation at the relations path is the
hierarchy relation pointing at the parent work item. -/
theorem taskPayload_relation (organization : String) (parentID : Int)
    (task : models.Task) (userStory : models.UserStory) :
    ∀ op ∈ taskPayload organization parentID task userStory,
      op.path = "/relations/-" →
      op.value = .rel ⟨"System.LinkTypes.Hierarchy-Reverse",
        workItemURL organization parentID, "Linking task to user story"⟩ := by
  intro op hop hpath
  simp only [taskPayload, List.mem_cons, List.not_mem_nil, or_false] at hop
  rcases hop with h | h | h | h | h | h | h <;> subst h <;>
    first
    | rfl
    | simp at hpath

/-- The i-th entry of the task loop is exactly `createTask` applied to the
i-th task with the i-th per-call environment. -/
theorem runTasks_getElem (settings : models.AdoSettings) (parentID : Int)
    (userStory : models.UserStory) :
    ∀ (tasks : List models.Task) (cenvs : Nat → CallEnv) (i : Nat)
      (t : models.Task),
      tasks[i]? = some t →
      (runTasks settings parentID userStory tasks cenvs)[i]? =
        some (createTask settings parentID t userStory (cenvs i)) := by
  intro tasks
  induction tasks with
  | nil => intro cenvs i t h; simp at h
  | cons hd tl ih =>
      intro cenvs i t h
      cases i with
      | zero =>
          simp only [List.getElem?_cons_zero, Option.some.injEq] at h
          subst h
          simp [runTasks]
      | succ n =>
          simp only [List.getElem?_cons_succ] at h
          simpa [runTasks] using ih (fun j => cenvs (j + 1)) n t h

/-- Every entry of the task loop is a `createTask` result for this parent
and this user story. -/
theorem runTasks_mem (settings : models.AdoSettings) (parentID : Int)
    (userStory : models.UserStory) :
    ∀ (tasks : List models.Task) (cenvs : Nat → CallEnv) pr,
      pr ∈ runTasks settings parentID userStory tasks cenvs →
      ∃ t env, pr = createTask settings parentID t userStory env := by
  intro tasks
  induction tasks with
  | nil => intro cenvs pr h; simp [runTasks] at h
  | cons hd tl ih =>
      intro cenvs pr h
      simp only [runTasks, List.mem_cons] at h
      rcases h with h | h
      · exact ⟨hd, cenvs 0, h⟩
      · exact ih (fun j => cenvs (j + 1)) pr h

/-- The child results of `createUserStory` are empty unless the parent
call returned a success status with a decodable body carrying a numeric
id, in which case they are the task loop run with that id. -/
theorem createUserStory_childResults (settings : models.AdoSettings)
    (userStory : models.UserStory) (penv : CallEnv) (cenvs : Nat → CallEnv) :
    (createUserStory settings userStory penv cenvs).childResults = [] ∨
    ∃ status statusLine obj n,
      penv = .response status statusLine (.ok obj) ∧
      (status = 200 ∨ status = 201) ∧
      obj.lookup ("id") = some (.num n) ∧
      (createUserStory settings userStory penv cenvs).childResults =
        runTasks settings n userStory userStory.Tasks cenvs := by
  unfold createUserStory
  split
  · left; rfl
  · cases penv with
    | buildReqError m => left; rfl
    | sendError m => left; rfl
    | response st sl body =>
        dsimp only
        split
        · cases body with
          | error e => left; rfl
          | ok obj =>
              dsimp only
              split <;> exact Or.inl rfl
        · rename_i hst
          cases body with
          | error e => left; rfl
          | ok obj =>
              dsimp only
              split
              · rename_i n heq
                right
                refine ⟨st, sl, obj, n, rfl, ?_, heq, rfl⟩
                rcases not_and_or.mp hst with h | h
                · exact Or.inl (not_ne_iff.mp h)
                · exact Or.inr (not_ne_iff.mp h)
              · left; rfl

/-! ### Concrete sample inputs for instantiating the theorems -/

/-- Sample configuration with all three values present. -/
def sampleSettings : models.AdoSettings := ⟨"contoso", "proj", "pat123"⟩

/-- Sample first task. -/
def sampleTask1 : models.Task := ⟨"T1", "Task", "task one", "alice", "New", 1, 3⟩

/-- Sample second task. -/
def sampleTask2 : models.Task := ⟨"T2", "Task", "task two", "bob", "New", 2, 5⟩

/-- Sample user story owning the two sample tasks. -/
def sampleStory : models.UserStory :=
  ⟨"US1", "User Story", "story one", "carol", "New", 1, "TeamA", "p",
   [sampleTask1, sampleTask2], none, "team1"⟩

/-- Sample successful parent response body carrying id 100. -/
def sampleBody : List (String × JVal) := [("id", .num 100)]

/-- Per-task environments where every task call succeeds. -/
def sampleCenvs : Nat → CallEnv :=
  fun _ => .response 200 "200 OK" (.ok [("id", .num 201)])

/-- Per-task environments where the first task call fails with a server
error and every later one succeeds. -/
def mixedCenvs : Nat → CallEnv :=
  fun i =>
    if i = 0 then .response 500 "500 Internal Server Error" (.ok [])
    else .response 200 "200 OK" (.ok [])

/-! ### Claims -/

/-- C1: for every batch of parent records with children, each
child-creation request's hierarchy-relation operation references the id
decoded from that child's own parent's creation response, embedded in the
work-item URL built from the organization name and that id — never the id
of another parent. -/
theorem C1_child_link_references_own_parent
    (settings : models.AdoSettings) (userStory : models.UserStory)
    (cenvs : Nat → CallEnv) (status : Nat) (statusLine : String)
    (obj : List (String × JVal)) (n : Int)
    (hid : obj.lookup ("id") = some (.num n)) :
    ∀ pr ∈ (createUserStory settings userStory
        (.response status statusLine (.ok obj)) cenvs).childResults,
      ∀ r ∈ pr.2, ∀ op ∈ r.payload, op.path = "/relations/-" →
        op.value = .rel ⟨"System.LinkTypes.Hierarchy-Reverse",
          workItemURL settings.Organization n, "Linking task to user story"⟩ := by
  intro pr hpr r hr op hop hpath
  rcases createUserStory_childResults settings userStory
      (.response status statusLine (.ok obj)) cenvs with
    hempty | ⟨st, sl, obj', n', hpenv, _, hid', hres⟩
  · rw [hempty] at hpr; simp at hpr
  · simp only [CallEnv.response.injEq, Except.ok.injEq] at hpenv
    obtain ⟨rfl, rfl, rfl⟩ := hpenv
    rw [hid] at hid'
    simp only [Option.some.injEq, JVal.num.injEq] at hid'
    subst hid'
    rw [hres] at hpr
    obtain ⟨t, env, rfl⟩ :=
      runTasks_mem settings n userStory userStory.Tasks cenvs pr hpr
    have hreq := createTask_requests settings n t userStory env r hr
    subst hreq
    exact taskPayload_relation settings.Organization n t userStory op hop hpath

/-- Witness for C1 at the sample inputs: the relation operation of the
first child's request points at the work-item URL for id 100, the id of
its own parent's response. -/
theorem C1_witness :
    (Op.mk ("add") "/relations/-" (.rel ⟨"System.LinkTypes.Hierarchy-Reverse",
        workItemURL ("contoso") 100, "Linking task to user story"⟩)).value =
      .rel ⟨"System.LinkTypes.Hierarchy-Reverse", workItemURL ("contoso") 100,
        "Linking task to user story"⟩ :=
  C1_child_link_references_own_parent sampleSettings sampleStory sampleCenvs
    200 "200 OK" sampleBody 100 (by decide)
    (createTask sampleSettings 100 sampleTask1 sampleStory (sampleCenvs 0))
    (by decide)
    ⟨taskURL ("contoso") "proj", taskPayload ("contoso") 100 sampleTask1 sampleStory⟩
    (by decide)
    (Op.mk ("add") "/relations/-" (.rel ⟨"System.LinkTypes.Hierarchy-Reverse",
      workItemURL ("contoso") 100, "Linking task to user story"⟩))
    (by decide) (by decide)

/-- C2: if the parent's creation fails — configuration error,
request-build failure, transport error, non-success HTTP status, or
undecodable response — then zero child-creation calls are issued for that
parent's children. -/
theorem C2_parent_failure_no_child_calls
    (settings : models.AdoSettings) (userStory : models.UserStory)
    (penv : CallEnv) (cenvs : Nat → CallEnv)
    (hfail :
      settings.Organization = "" ∨ settings.Project = "" ∨
      settings.Pat = "" ∨
      (∃ m, penv = .buildReqError m) ∨ (∃ m, penv = .sendError m) ∨
      (∃ status statusLine body, penv = .response status statusLine body ∧
        status ≠ 200 ∧ status ≠ 201) ∨
      (∃ status statusLine e, penv = .response status statusLine (.error e))) :
    (createUserStory settings userStory penv cenvs).childResults = [] := by
  rcases hfail with h | h | h | h | h | h | h
  · unfold createUserStory; rw [if_pos (Or.inl h)]
  · unfold createUserStory; rw [if_pos (Or.inr (Or.inl h))]
  · unfold createUserStory; rw [if_pos (Or.inr (Or.inr h))]
  · obtain ⟨m, rfl⟩ := h
    unfold createUserStory
    split
    · rfl
    · rfl
  · obtain ⟨m, rfl⟩ := h
    unfold createUserStory
    split
    · rfl
    · rfl
  · obtain ⟨st, sl, body, rfl, h1, h2⟩ := h
    unfold createUserStory
    split
    · rfl
    · dsimp only
      rw [if_pos ⟨h1, h2⟩]
      cases body with
      | error e => rfl
      | ok obj =>
          dsimp only
          split
          · rfl
          · rfl
  · obtain ⟨st, sl, e, rfl⟩ := h
    unfold createUserStory
    split
    · rfl
    · dsimp only
      split
      · rfl
      · rfl

/-- Witness for C2: a transport error on the parent call leaves the child
results empty. -/
theorem C2_witness :
    (createUserStory sampleSettings sampleStory (.sendError ("dial tcp refused"))
        sampleCenvs).childResults = [] :=
  C2_parent_failure_no_child_calls sampleSettings sampleStory
    (.sendError ("dial tcp refused")) sampleCenvs
    (Or.inr (Or.inr (Or.inr (Or.inr (Or.inl ⟨"dial tcp refused", rfl⟩)))))

/-- C3: for a parent whose creation succeeded, every child is attempted
with its own per-call environment — a child's failure is terminal only
for that child — and the parent call still returns without error. -/
theorem C3_sibling_children_attempted
    (settings : models.AdoSettings) (userStory : models.UserStory)
    (cenvs : Nat → CallEnv) (status : Nat) (statusLine : String)
    (obj : List (String × JVal)) (n : Int)
    (horg : settings.Organization ≠ "") (hproj : settings.Project ≠ "")
    (hpat : settings.Pat ≠ "")
    (hstatus : status = 200 ∨ status = 201)
    (hid : obj.lookup ("id") = some (.num n)) :
    (createUserStory settings userStory (.response status statusLine (.ok obj))
        cenvs).outcome = .ok ∧
    ∀ (i : Nat) (t : models.Task), userStory.Tasks[i]? = some t →
      (createUserStory settings userStory
          (.response status statusLine (.ok obj)) cenvs).childResults[i]? =
        some (createTask settings n t userStory (cenvs i)) := by
  have hconfig : ¬(settings.Organization = "" ∨ settings.Project = "" ∨
      settings.Pat = "") := by
    push_neg
    exact ⟨horg, hproj, hpat⟩
  have hst : ¬(status ≠ 200 ∧ status ≠ 201) := by
    rcases hstatus with rfl | rfl <;> simp
  unfold createUserStory
  rw [if_neg hconfig]
  dsimp only
  rw [if_neg hst, hid]
  exact ⟨rfl, fun i t hit =>
    runTasks_getElem settings n userStory userStory.Tasks cenvs i t hit⟩

/-- Witness for C3: with the first child's call failing (HTTP 500) and
the second succeeding, the parent returns without error and the second
child is still attempted with its own environment. -/
theorem C3_witness :
    (createUserStory sampleSettings sampleStory
        (.response 200 "200 OK" (.ok sampleBody)) mixedCenvs).outcome = .ok ∧
    (createUserStory sampleSettings sampleStory
        (.response 200 "200 OK" (.ok sampleBody)) mixedCenvs).childResults[1]? =
      some (createTask sampleSettings 100 sampleTask2 sampleStory
        (mixedCenvs 1)) :=
  ⟨(C3_sibling_children_attempted sampleSettings sampleStory mixedCenvs 200
      "200 OK" sampleBody 100 (by decide) (by decide) (by decide)
      (Or.inl rfl) (by decide)).1,
   (C3_sibling_children_attempted sampleSettings sampleStory mixedCenvs 200
      "200 OK" sampleBody 100 (by decide) (by decide) (by decide)
      (Or.inl rfl) (by decide)).2 1 sampleTask2 (by decide)⟩

/-- C4: with an empty organization, project or credential, both creation
functions return the configuration error immediately and issue no
request. -/
theorem C4_empty_config_immediate_error
    (settings : models.AdoSettings)
    (h : settings.Organization = "" ∨ settings.Project = "" ∨
      settings.Pat = "")
    (userStory : models.UserStory) (penv : CallEnv) (cenvs : Nat → CallEnv)
    (parentID : Int) (task : models.Task) (env : CallEnv) :
    createUserStory settings userStory penv cenvs =
      ⟨.err .missingConfig, [], []⟩ ∧
    createTask settings parentID task userStory env =
      (.err .missingConfig, []) := by
  constructor
  · unfold createUserStory; rw [if_pos h]
  · unfold createTask; rw [if_pos h]

/-- Witness for C4 at an empty organization. -/
theorem C4_witness :
    createUserStory ⟨"", "proj", "pat123"⟩ sampleStory
        (.response 200 "200 OK" (.ok sampleBody)) sampleCenvs =
      ⟨.err .missingConfig, [], []⟩ ∧
    createTask ⟨"", "proj", "pat123"⟩ 100 sampleTask1 sampleStory
        (.response 200 "200 OK" (.ok sampleBody)) =
      (.err .missingConfig, []) :=
  C4_empty_config_immediate_error ⟨"", "proj", "pat123"⟩ (Or.inl rfl)
    sampleStory (.response 200 "200 OK" (.ok sampleBody)) sampleCenvs 100
    sampleTask1 (.response 200 "200 OK" (.ok sampleBody))

/-- C5 counterexample: the child-creation payload for the sample task
contains no tag operation at all — neither the exact tag operation nor
any operation at the tags path — refuting the claim for child items. -/
theorem C5_counterexample :
    (Op.mk ("add") "/fields/System.Tags" (.str ("system_automated")) ∉
      taskPayload ("contoso") 100 sampleTask1 sampleStory) ∧
    (taskPayload ("contoso") 100 sampleTask1 sampleStory).all
      (fun o => o.path != "/fields/System.Tags") = true := by
  decide

/-- C5 (amended): every parent-creation payload contains the operation
stamping the fixed machine-generated tag, but child-creation payloads
contain no operation at the tags path at all. -/
theorem C5_tag_only_on_parent_payload
    (userStory : models.UserStory) (organization : String) (parentID : Int)
    (task : models.Task) (parentStory : models.UserStory) :
    Op.mk ("add") "/fields/System.Tags" (.str ("system_automated")) ∈
      userStoryPayload userStory ∧
    (taskPayload organization parentID task parentStory).all
      (fun o => o.path != "/fields/System.Tags") = true := by
  constructor
  · simp [userStoryPayload]
  · rfl

/-- C6 counterexample: a child-creation call receiving HTTP 400 with a
decodable error body carrying message "boom" returns an error surfacing
no message (the body is never decoded), and a parent-creation call whose
error body cannot be decoded returns an error surfacing the decode
failure but not the raw HTTP status line. -/
theorem C6_counterexample :
    (createTask sampleSettings 100 sampleTask1 sampleStory
        (.response 400 "400 Bad Request" (.ok [("message", .str ("boom"))]))).1 =
      .err (.createTaskFailed ("400 Bad Request")) ∧
    surfacedMessage (.createTaskFailed ("400 Bad Request")) = none ∧
    (createUserStory sampleSettings sampleStory
        (.response 400 "400 Bad Request" (.error ("unexpected EOF")))
        sampleCenvs).outcome = .err (.parseFailed ("unexpected EOF")) ∧
    surfacedStatus (.parseFailed ("unexpected EOF")) = none :=
  ⟨rfl, rfl, rfl, rfl⟩

/-- C6 (amended): on a non-success status, a parent-creation call whose
error body decodes with a string `message` returns an error surfacing the
status line together with that message; if the body cannot be decoded,
the returned error surfaces only the decode failure, not the status line;
a child-creation call never decodes the error body and its error surfaces
only the raw status line, never a message. -/
theorem C6_error_surfacing
    (settings : models.AdoSettings)
    (horg : settings.Organization ≠ "") (hproj : settings.Project ≠ "")
    (hpat : settings.Pat ≠ "")
    (userStory : models.UserStory) (cenvs : Nat → CallEnv)
    (status : Nat) (statusLine : String)
    (hstatus : status ≠ 200 ∧ status ≠ 201) :
    (∀ obj msg, obj.lookup ("message") = some (.str msg) →
      (createUserStory settings userStory
          (.response status statusLine (.ok obj)) cenvs).outcome =
        .err (.createUserStoryFailed statusLine msg)) ∧
    (∀ e, (createUserStory settings userStory
          (.response status statusLine (.error e)) cenvs).outcome =
        .err (.parseFailed e) ∧
      surfacedStatus (.parseFailed e) = none) ∧
    (∀ (parentID : Int) (task : models.Task)
      (body : Except String (List (String × JVal))),
      (createTask settings parentID task userStory
          (.response status statusLine body)).1 =
        .err (.createTaskFailed statusLine) ∧
      surfacedMessage (.createTaskFailed statusLine) = none ∧
      surfacedStatus (.createTaskFailed statusLine) = some statusLine) := by
  have hconfig : ¬(settings.Organization = "" ∨ settings.Project = "" ∨
      settings.Pat = "") := by
    push_neg
    exact ⟨horg, hproj, hpat⟩
  refine ⟨?_, ?_, ?_⟩
  · intro obj msg hmsg
    unfold createUserStory
    rw [if_neg hconfig]
    dsimp only
    rw [if_pos hstatus]
    rw [hmsg]
  · intro e
    refine ⟨?_, rfl⟩
    unfold createUserStory
    rw [if_neg hconfig]
    dsimp only
    rw [if_pos hstatus]
  · intro parentID task body
    refine ⟨?_, rfl, rfl⟩
    unfold createTask
    rw [if_neg hconfig]
    dsimp only
    rw [if_pos hstatus]

/-- Witness for C6 (amended) at HTTP 403 with message "denied". -/
theorem C6_witness :
    (createUserStory sampleSettings sampleStory
        (.response 403 "403 Forbidden" (.ok [("message", .str ("denied"))]))
        sampleCenvs).outcome =
      .err (.createUserStoryFailed ("403 Forbidden") "denied") :=
  (C6_error_surfacing sampleSettings (by decide) (by decide) (by decide)
      sampleStory sampleCenvs 403 "403 Forbidden" (by decide)).1
    [("message", .str ("denied"))] "denied" (by decide)

/-- C7: a parent-creation call receiving a success status whose decoded
body lacks a numeric `id` (missing, or a string instead of a number) does
not fail the record with an explicit error: the blind `float64` type
assertion at main.go:168 panics, crashing the process. -/
theorem C7_missing_id_panics :
    (createUserStory sampleSettings sampleStory
        (.response 200 "200 OK" (.ok [])) sampleCenvs).outcome =
      .panic ("interface conversion: id is not a float64") ∧
    (createUserStory sampleSettings sampleStory
        (.response 201 "201 Created" (.ok [("id", .str ("100"))]))
        sampleCenvs).outcome =
      .panic ("interface conversion: id is not a float64") :=
  ⟨rfl, rfl⟩

/-- C8: the area value placed in a child-creation payload equals the
parent story's area field: the payload contains the area operation
carrying `userStory.Area`, and every operation at the area path carries
exactly that value (the child record itself has no area field). -/
theorem C8_child_area_equals_parent_area
    (organization : String) (parentID : Int) (task : models.Task)
    (userStory : models.UserStory) :
    Op.mk ("add") "/fields/System.AreaPath" (.str userStory.Area) ∈
      taskPayload organization parentID task userStory ∧
    ∀ op ∈ taskPayload organization parentID task userStory,
      op.path = "/fields/System.AreaPath" →
        op.value = .str userStory.Area := by
  constructor
  · simp [taskPayload]
  · intro op hop hpath
    simp only [taskPayload, List.mem_cons, List.not_mem_nil, or_false] at hop
    rcases hop with h | h | h | h | h | h | h <;> subst h <;>
      first
      | rfl
      | simp at hpath

/-- Witness for C8 at the sample inputs: the area operation of the first
sample task's payload carries the parent's area "TeamA". -/
theorem C8_witness :
    (Op.mk ("add") "/fields/System.AreaPath" (.str ("TeamA")) ∈
      taskPayload ("contoso") 100 sampleTask1 sampleStory) ∧
    (Op.mk ("add") "/fields/System.AreaPath" (.str ("TeamA"))).value =
      .str ("TeamA") :=
  ⟨(C8_child_area_equals_parent_area ("contoso") 100 sampleTask1 sampleStory).1,
   (C8_child_area_equals_parent_area ("contoso") 100 sampleTask1 sampleStory).2
     (Op.mk ("add") "/fields/System.AreaPath" (.str ("TeamA"))) (by decide) rfl⟩

/-- C9: mapping a record to operations preserves name, description,
owner, priority and state verbatim, for both parent and child payloads:
each value is recoverable unchanged from the operation at the
corresponding path. -/
theorem C9_fields_preserved_verbatim (userStory : models.UserStory)
    (organization : String) (parentID : Int) (task : models.Task) :
    fieldValue (userStoryPayload userStory) "/fields/System.Title" =
      some (.str userStory.Name) ∧
    fieldValue (userStoryPayload userStory) "/fields/System.Description" =
      some (.str userStory.Description) ∧
    fieldValue (userStoryPayload userStory) "/fields/System.AssignedTo" =
      some (.str userStory.Owner) ∧
    fieldValue (userStoryPayload userStory)
        "/fields/Microsoft.VSTS.Common.Priority" =
      some (.num userStory.Priority) ∧
    fieldValue (userStoryPayload userStory) "/fields/System.State" =
      some (.str userStory.State) ∧
    fieldValue (taskPayload organization parentID task userStory)
        "/fields/System.Title" = some (.str task.Name) ∧
    fieldValue (taskPayload organization parentID task userStory)
        "/fields/System.Description" = some (.str task.Description) ∧
    fieldValue (taskPayload organization parentID task userStory)
        "/fields/System.AssignedTo" = some (.str task.Owner) ∧
    fieldValue (taskPayload organization parentID task userStory)
        "/fields/Microsoft.VSTS.Common.Priority" =
      some (.num task.Priority) ∧
    fieldValue (taskPayload organization parentID task userStory)
        "/fields/System.State" = some (.str task.State) :=
  ⟨rfl, rfl, rfl, rfl, rfl, rfl, rfl, rfl, rfl, rfl⟩

/-- Erases the task fields that never reach the wire: `Type` and
`Estimate` appear in no payload operation of `taskPayload`. -/
def scrubTask (task : models.Task) : models.Task :=
  { task with Type' := "", Estimate := 0 }

/-- Erases the record fields that never reach the wire: the story's
`Type` and, in each of its tasks, `Type` and `Estimate`. -/
def scrubUserStory (userStory : models.UserStory) : models.UserStory :=
  { userStory with Type' := "", Tasks := userStory.Tasks.map scrubTask }

/-- Task payloads agree whenever the tasks agree outside `Type` and
`Estimate` and the parent stories agree on the area. -/
theorem taskPayload_scrub (organization : String) (parentID : Int)
    (t1 t2 : models.Task) (us1 us2 : models.UserStory)
    (ht : scrubTask t1 = scrubTask t2) (harea : us1.Area = us2.Area) :
    taskPayload organization parentID t1 us1 =
      taskPayload organization parentID t2 us2 := by
  have ht' := ht
  simp only [scrubTask, models.Task.mk.injEq, and_true, true_and] at ht'
  obtain ⟨hName, hDesc, hOwner, hState, hPriority⟩ := ht'
  simp [taskPayload, hName, hDesc, hOwner, hPriority, hState, harea]

/-- Function `createTask` agrees on tasks that agree outside `Type` and `Estimate`
and stories agreeing on the area. -/
theorem createTask_scrub (settings : models.AdoSettings) (parentID : Int)
    (t1 t2 : models.Task) (us1 us2 : models.UserStory) (env : CallEnv)
    (ht : scrubTask t1 = scrubTask t2) (harea : us1.Area = us2.Area) :
    createTask settings parentID t1 us1 env =
      createTask settings parentID t2 us2 env := by
  unfold createTask
  rw [taskPayload_scrub settings.Organization parentID t1 t2 us1 us2 ht harea]

/-- The task loop agrees on task lists that agree pointwise outside
`Type` and `Estimate`. -/
theorem runTasks_scrub (settings : models.AdoSettings) (parentID : Int)
    (us1 us2 : models.UserStory) (harea : us1.Area = us2.Area) :
    ∀ (ts1 ts2 : List models.Task), ts1.map scrubTask = ts2.map scrubTask →
      ∀ cenvs, runTasks settings parentID us1 ts1 cenvs =
        runTasks settings parentID us2 ts2 cenvs := by
  intro ts1
  induction ts1 with
  | nil =>
      intro ts2 h cenvs
      cases ts2 with
      | nil => rfl
      | cons b bs => simp at h
  | cons a as ih =>
      intro ts2 h cenvs
      cases ts2 with
      | nil => simp at h
      | cons b bs =>
          simp only [List.map_cons, List.cons.injEq] at h
          obtain ⟨hab, hrest⟩ := h
          simp only [runTasks]
          rw [createTask_scrub settings parentID a b us1 us2 (cenvs 0) hab
              harea,
            ih bs hrest (fun j => cenvs (j + 1))]

/-- C10: two runs whose records differ only in the story's `Type` field
or a task's `Type` or `Estimate` fields are indistinguishable: the entire
result of `createUserStory` — outcome, issued requests and per-child
results — is identical, because the work-item kind in the URL is fixed
per level and these fields appear in no payload operation. -/
theorem C10_type_estimate_noninterference
    (settings : models.AdoSettings) (us1 us2 : models.UserStory)
    (penv : CallEnv) (cenvs : Nat → CallEnv)
    (h : scrubUserStory us1 = scrubUserStory us2) :
    createUserStory settings us1 penv cenvs =
      createUserStory settings us2 penv cenvs := by
  have h' := h
  simp only [scrubUserStory, models.UserStory.mk.injEq, and_true,
    true_and] at h'
  obtain ⟨hName, hDesc, hOwner, hState, hPriority, hArea, hPath, hTasks,
    hIter, hTeam⟩ := h'
  have hpay : userStoryPayload us1 = userStoryPayload us2 := by
    simp [userStoryPayload, hName, hDesc, hOwner, hPriority, hState, hArea]
  unfold createUserStory
  split
  · rfl
  · cases penv with
    | buildReqError m => rfl
    | sendError m => rw [hpay]
    | response st sl body =>
        dsimp only
        split
        · cases body with
          | error e => rw [hpay]
          | ok obj =>
              dsimp only
              split
              · rw [hpay]
              · rw [hpay]
        · cases body with
          | error e => rw [hpay]
          | ok obj =>
              dsimp only
              split
              · rename_i n heq
                rw [hpay,
                  runTasks_scrub settings n us1 us2 hArea us1.Tasks us2.Tasks
                    hTasks cenvs]
              · rw [hpay]

/-- Sample story differing from `sampleStory` only in the story's type
and the first task's type and estimate. -/
def sampleStoryB : models.UserStory :=
  ⟨"US1", "Feature", "story one", "carol", "New", 1, "TeamA", "p",
   [⟨"T1", "Bug", "task one", "alice", "New", 1, 99⟩, sampleTask2], none,
   "team1"⟩

/-- Witness for C10: changing the story type and the first task's type
and estimate leaves the whole result identical. -/
theorem C10_witness :
    createUserStory sampleSettings sampleStory
        (.response 200 "200 OK" (.ok sampleBody)) sampleCenvs =
      createUserStory sampleSettings sampleStoryB
        (.response 200 "200 OK" (.ok sampleBody)) sampleCenvs :=
  C10_type_estimate_noninterference sampleSettings sampleStory sampleStoryB
    (.response 200 "200 OK" (.ok sampleBody)) sampleCenvs (by decide)
